import Mathlib

/-
Verification of the oregon-trail state reducer (src/src/main.rs).

Modelling conventions:
- The Rust u64 fields (miles, food, health) and u64 action payloads are
  embedded as Nat; arithmetic that can wrap in release builds is made
  explicit with mod 2^64 (u64add, u64sub).
- The i64 field hunt_days and chrono Duration payloads (whole days) are
  embedded as Int.
- chrono Date<Utc> is embedded as an Int day number; Utc.ymd is embedded
  by days_from_civil, the standard proleptic-Gregorian day count used by
  chrono, and Date + Duration::days(d) becomes Int addition.
- The boxed callbacks of Status/Help/Quit are embedded as functions
  State → State applied directly, exactly as the source applies them.
-/

namespace OregonTrail

/-- The u64 modulus, 2 to the power 64, written as a numeral so that
omega can work with it. -/
def U64MOD : Nat := 18446744073709551616

/-- Wrapping u64 addition, the release-mode semantics of the unchecked
Rust addition in the Hunt branch. -/
def u64add (a b : Nat) : Nat := (a + b) % U64MOD

/-- Wrapping u64 subtraction, the release-mode semantics of the unchecked
Rust subtraction in the Travel branch. -/
def u64sub (a b : Nat) : Nat := (a + (U64MOD - b % U64MOD)) % U64MOD

/-- Day number of a civil (proleptic Gregorian) date, counted from
1970-01-01, matching the day arithmetic of chrono Utc.ymd. -/
def days_from_civil (y m d : Int) : Int :=
  let yy : Int := if m ≤ 2 then y - 1 else y
  let era : Int := (if 0 ≤ yy then yy else yy - 399) / 400
  let yoe : Int := yy - era * 400
  let mp : Int := (m + 9) % 12
  let doy : Int := (153 * mp + 2) / 5 + d - 1
  let doe : Int := yoe * 365 + yoe / 4 - yoe / 100 + doy
  era * 146097 + doe - 719468

/-- The game state of src/src/main.rs: date is a chrono Date<Utc>
(embedded as an Int day number), miles, food and health are u64, and
hunt_days is i64. -/
structure State where
  date : Int
  miles : Nat
  food : Nat
  health : Nat
  hunt_days : Int
  deriving DecidableEq

/-- The Action enum of src/src/main.rs. Help, Quit and Status carry a
boxed callback Fn(State) -> State; Rest carries a Duration (whole days);
Travel carries a Duration and a u64 distance. -/
inductive Action where
  | Help (f : State → State)
  | Hunt
  | Quit (f : State → State)
  | Rest (days : Int)
  | Status (f : State → State)
  | Travel (days : Int) (distance : Nat)

/-- The reducer of src/src/main.rs, lines 62-99, branch by branch. -/
def root_reducer (state : State) (action : Action) : State :=
  match action with
  | Action.Travel days distance =>
      { state with
        date := state.date + days
        miles := u64sub state.miles distance }
  | Action.Rest days =>
      { state with
        date := state.date + days
        health := if state.health < 5 then state.health + 1 else state.health }
  | Action.Hunt =>
      { state with
        date := state.date + state.hunt_days
        food := u64add state.food 100 }
  | Action.Status status_function => status_function state
  | Action.Help help_function => help_function state
  | Action.Quit quit_mock => quit_mock state

/-- Holds when the callback carried by the action (if any) is the
identity function. -/
def callback_id : Action → Prop
  | Action.Help f => f = id
  | Action.Quit f => f = id
  | Action.Status f => f = id
  | _ => True

/-- Holds when the Duration payload carried by the action (if any) is
nonnegative. -/
def nonneg_duration : Action → Prop
  | Action.Rest d => 0 ≤ d
  | Action.Travel d _ => 0 ≤ d
  | _ => True

/-- Recognizer for the Rest constructor. -/
def Action.isRest : Action → Prop
  | Action.Rest _ => True
  | _ => False

/-- What one run of the driver (main, lines 118-131) does after reading
one line: which action it dispatches, if any, and the input echoed in
the unimplemented-action message, if one is printed. -/
structure DriverStep where
  dispatched : Option Action
  message : Option String

/-- The driver match of src/src/main.rs, lines 118-131, parameterised by
the two gen_range draws: on the exact input "travel" it dispatches
Travel with a duration drawn from gen_range(3, 7) and a distance drawn
from gen_range(30, 60); on any other input it dispatches nothing and
prints the unimplemented-action message naming the input. -/
def main_step (rngInt : Int → Int → Int) (rngNat : Nat → Nat → Nat)
    (user_input : String) : DriverStep :=
  if user_input = "travel" then
    { dispatched := some (Action.Travel (rngInt 3 7) (rngNat 30 60))
      message := none }
  else
    { dispatched := none, message := some user_input }

/-- A deterministic stand-in for gen_range that returns the lower bound,
used to instantiate driver theorems at concrete inputs. -/
def const_lo_int : Int → Int → Int := fun lo _ => lo

/-- A deterministic stand-in for gen_range that returns the lower bound,
used to instantiate driver theorems at concrete inputs. -/
def const_lo_nat : Nat → Nat → Nat := fun lo _ => lo

/-- The initial state built in main (the name keeps the spelling of the
source). -/
def inital_state : State :=
  { date := days_from_civil 2020 3 1
    miles := 2000
    food := 500
    health := 5
    hunt_days := 2 }

/-- The initial state of the test_rest unit test: health 4. -/
def rest_initial_state : State := { inital_state with health := 4 }

/-- A state whose hunt_days is negative (a valid i64 value). -/
def negative_hunt_state : State := { inital_state with hunt_days := -1 }

/-- A state whose food is at the top of the u64 range. -/
def max_food_state : State := { inital_state with food := U64MOD - 1 }

/-- A state with no miles remaining. -/
def zero_miles_state : State := { inital_state with miles := 0 }

/-- C1: for every state s (with miles in u64 range), duration d and
distance m with m ≤ s.miles, root_reducer(s, Travel(d, m)) has miles
equal to s.miles - m and date equal to s.date + d, with food, health
and hunt_days unchanged. -/
theorem travel_updates_miles_and_date (s : State) (d : Int) (m : Nat)
    (hs : s.miles < U64MOD) (hm : m ≤ s.miles) :
    (root_reducer s (Action.Travel d m)).miles = s.miles - m ∧
    (root_reducer s (Action.Travel d m)).date = s.date + d ∧
    (root_reducer s (Action.Travel d m)).food = s.food ∧
    (root_reducer s (Action.Travel d m)).health = s.health ∧
    (root_reducer s (Action.Travel d m)).hunt_days = s.hunt_days := by
  refine ⟨?_, rfl, rfl, rfl, rfl⟩
  show u64sub s.miles m = s.miles - m
  simp only [u64sub, U64MOD] at hs ⊢
  omega

/-- Witness for C1 at the initial state with Travel(3 days, 30 miles). -/
theorem travel_updates_miles_and_date_witness :
    inital_state.miles < U64MOD ∧ 30 ≤ inital_state.miles ∧
    (root_reducer inital_state (Action.Travel 3 30)).miles = inital_state.miles - 30 :=
  ⟨by decide, by decide,
    (travel_updates_miles_and_date inital_state 3 30 (by decide) (by decide)).1⟩

/-- C2: for every state s and duration d, root_reducer(s, Rest(d)) has
date s.date + d; its health is s.health + 1 when s.health < 5 and 5
when s.health = 5; miles, food and hunt_days are unchanged. -/
theorem rest_updates_health_and_date (s : State) (d : Int) :
    (s.health < 5 → (root_reducer s (Action.Rest d)).health = s.health + 1) ∧
    (s.health = 5 → (root_reducer s (Action.Rest d)).health = 5) ∧
    (root_reducer s (Action.Rest d)).date = s.date + d ∧
    (root_reducer s (Action.Rest d)).miles = s.miles ∧
    (root_reducer s (Action.Rest d)).food = s.food ∧
    (root_reducer s (Action.Rest d)).hunt_days = s.hunt_days := by
  refine ⟨?_, ?_, rfl, rfl, rfl, rfl⟩ <;> intro h <;>
    simp [root_reducer, h]

/-- Witness for C2: the health-4 test state gains one health, and the
health-5 initial state stays at the cap. -/
theorem rest_updates_health_and_date_witness :
    rest_initial_state.health < 5 ∧
    (root_reducer rest_initial_state (Action.Rest 2)).health = rest_initial_state.health + 1 ∧
    inital_state.health = 5 ∧
    (root_reducer inital_state (Action.Rest 2)).health = 5 :=
  ⟨by decide, (rest_updates_health_and_date rest_initial_state 2).1 (by decide),
    by decide, (rest_updates_health_and_date inital_state 2).2.1 (by decide)⟩

/-- C3 counterexample: at a state whose food is u64::MAX, the Hunt
branch wraps, so the resulting food is not s.food + 100. -/
theorem hunt_updates_food_counterexample :
    (root_reducer max_food_state Action.Hunt).food ≠ max_food_state.food + 100 := by
  decide

/-- C3 (amended): for every state s whose food increment does not
overflow u64, root_reducer(s, Hunt) has food s.food + 100 and date
s.date + s.hunt_days, with miles, health and hunt_days unchanged; Hunt
carries no duration or distance parameter, so the date shift depends
only on the hunt_days field of the state. -/
theorem hunt_updates_food_and_date (s : State) (hf : s.food + 100 < U64MOD) :
    (root_reducer s Action.Hunt).food = s.food + 100 ∧
    (root_reducer s Action.Hunt).date = s.date + s.hunt_days ∧
    (root_reducer s Action.Hunt).miles = s.miles ∧
    (root_reducer s Action.Hunt).health = s.health ∧
    (root_reducer s Action.Hunt).hunt_days = s.hunt_days := by
  refine ⟨?_, rfl, rfl, rfl, rfl⟩
  show u64add s.food 100 = s.food + 100
  simp only [u64add, U64MOD] at hf ⊢
  omega

/-- Witness for C3 (amended) at the initial state. -/
theorem hunt_updates_food_and_date_witness :
    inital_state.food + 100 < U64MOD ∧
    (root_reducer inital_state Action.Hunt).food = inital_state.food + 100 :=
  ⟨by decide, (hunt_updates_food_and_date inital_state (by decide)).1⟩

/-- C4: the Travel subtraction is unguarded: whenever m ≤ s.miles
(miles in u64 range) it computes s.miles - m, and at a state with no
miles remaining a Travel of distance 1 wraps to u64::MAX — the result
is neither clamped to zero nor an error. -/
theorem travel_subtraction_unguarded :
    (∀ (s : State) (d : Int) (m : Nat), s.miles < U64MOD → m ≤ s.miles →
      (root_reducer s (Action.Travel d m)).miles = s.miles - m) ∧
    zero_miles_state.miles < 1 ∧
    (root_reducer zero_miles_state (Action.Travel 3 1)).miles = U64MOD - 1 ∧
    (root_reducer zero_miles_state (Action.Travel 3 1)).miles ≠ 0 := by
  refine ⟨?_, by decide, by decide, by decide⟩
  intro s d m hs hm
  show u64sub s.miles m = s.miles - m
  simp only [u64sub, U64MOD] at hs ⊢
  omega

/-- Witness for C4 (the guarded conjunct) at the initial state. -/
theorem travel_subtraction_unguarded_witness :
    inital_state.miles < U64MOD ∧ (30 : Nat) ≤ inital_state.miles ∧
    (root_reducer inital_state (Action.Travel 5 30)).miles = inital_state.miles - 30 :=
  ⟨by decide, by decide,
    travel_subtraction_unguarded.1 inital_state 5 30 (by decide) (by decide)⟩

/-- C5: root_reducer(s, Status(f)) is the single synchronous
application of f to the original state s (the shallow embedding of the
call status_function(*state)), so the result is f(s), and with the
identity callback it is s; Help and Quit satisfy the same contract. -/
theorem callback_actions_apply_callback (s : State) (f : State → State) :
    root_reducer s (Action.Status f) = f s ∧
    root_reducer s (Action.Help f) = f s ∧
    root_reducer s (Action.Quit f) = f s ∧
    root_reducer s (Action.Status id) = s ∧
    root_reducer s (Action.Help id) = s ∧
    root_reducer s (Action.Quit id) = s :=
  ⟨rfl, rfl, rfl, rfl, rfl, rfl⟩

/-- C6: for every state s with health at most 5 and every action whose
callback (if any) is the identity, the reduced health is at most 5, and
any action that strictly increases health is a Rest. -/
theorem health_bounded_and_rest_only (s : State) (a : Action)
    (hh : s.health ≤ 5) (hc : callback_id a) :
    (root_reducer s a).health ≤ 5 ∧
    (s.health < (root_reducer s a).health → a.isRest) := by
  cases a with
  | Help f =>
      have hf : f = id := hc
      subst hf
      exact ⟨hh, fun h => absurd h (Nat.lt_irrefl _)⟩
  | Hunt => exact ⟨hh, fun h => absurd h (Nat.lt_irrefl _)⟩
  | Quit f =>
      have hf : f = id := hc
      subst hf
      exact ⟨hh, fun h => absurd h (Nat.lt_irrefl _)⟩
  | Rest d =>
      refine ⟨?_, fun _ => True.intro⟩
      show (if s.health < 5 then s.health + 1 else s.health) ≤ 5
      split <;> omega
  | Status f =>
      have hf : f = id := hc
      subst hf
      exact ⟨hh, fun h => absurd h (Nat.lt_irrefl _)⟩
  | Travel d m => exact ⟨hh, fun h => absurd h (Nat.lt_irrefl _)⟩

/-- Witness for C6 at the health-4 test state under Rest(2 days): the
bound holds, and since health did increase, the action is a Rest. -/
theorem health_bounded_and_rest_only_witness :
    rest_initial_state.health ≤ 5 ∧ callback_id (Action.Rest 2) ∧
    (root_reducer rest_initial_state (Action.Rest 2)).health ≤ 5 ∧
    (Action.Rest 2).isRest :=
  ⟨by decide, True.intro,
    (health_bounded_and_rest_only rest_initial_state (Action.Rest 2) (by decide) True.intro).1,
    (health_bounded_and_rest_only rest_initial_state (Action.Rest 2) (by decide) True.intro).2
      (by decide)⟩

/-- C7 counterexample: Hunt at a state whose (signed i64) hunt_days is
-1 moves the date backwards, so the date is not monotone over all
states and identity-callback actions. -/
theorem date_monotonic_counterexample :
    callback_id Action.Hunt ∧
    (root_reducer negative_hunt_state Action.Hunt).date < negative_hunt_state.date :=
  ⟨True.intro, by decide⟩

/-- C7 (amended): for every state s with nonnegative hunt_days and
every action whose callback (if any) is the identity and whose Duration
payload (if any) is nonnegative, the date does not decrease. -/
theorem date_monotonic_amended (s : State) (a : Action)
    (hhd : 0 ≤ s.hunt_days) (hc : callback_id a) (hd : nonneg_duration a) :
    s.date ≤ (root_reducer s a).date := by
  cases a with
  | Help f =>
      have hf : f = id := hc
      subst hf
      exact le_refl _
  | Hunt =>
      show s.date ≤ s.date + s.hunt_days
      omega
  | Quit f =>
      have hf : f = id := hc
      subst hf
      exact le_refl _
  | Rest d =>
      have hd2 : 0 ≤ d := hd
      show s.date ≤ s.date + d
      omega
  | Status f =>
      have hf : f = id := hc
      subst hf
      exact le_refl _
  | Travel d m =>
      have hd2 : 0 ≤ d := hd
      show s.date ≤ s.date + d
      omega

/-- Witness for C7 (amended) at the initial state under Hunt. -/
theorem date_monotonic_amended_witness :
    0 ≤ inital_state.hunt_days ∧ callback_id Action.Hunt ∧
    nonneg_duration Action.Hunt ∧
    inital_state.date ≤ (root_reducer inital_state Action.Hunt).date :=
  ⟨by decide, True.intro, True.intro,
    date_monotonic_amended inital_state Action.Hunt (by decide) True.intro True.intro⟩

/-- C8: the concrete scenario of the unit tests: from the start state
(2020-03-01, 2000 miles, 500 food, 5 health, 2 hunt days), Travel(3
days, 30 miles) gives 2020-03-04 with 1970 miles; Hunt on that result
gives 2020-03-06 with 600 food; Rest(2 days) on the start state with
health 4 gives 2020-03-03 with health 5 and other fields unchanged. -/
theorem concrete_scenario :
    root_reducer inital_state (Action.Travel 3 30) =
      { date := days_from_civil 2020 3 4, miles := 1970, food := 500,
        health := 5, hunt_days := 2 } ∧
    root_reducer (root_reducer inital_state (Action.Travel 3 30)) Action.Hunt =
      { date := days_from_civil 2020 3 6, miles := 1970, food := 600,
        health := 5, hunt_days := 2 } ∧
    root_reducer rest_initial_state (Action.Rest 2) =
      { date := days_from_civil 2020 3 3, miles := 2000, food := 500,
        health := 5, hunt_days := 2 } := by
  refine ⟨?_, ?_, ?_⟩ <;> decide

/-- C9: assuming the gen_range contract at the two call sites (a draw
from the half-open range [lo, hi)), the driver dispatches Travel
precisely on the exact input "travel", with duration in [3, 6] days and
distance in [30, 59] miles; every other input, in particular "travel"
followed by the untrimmed newline, dispatches nothing and prints the
unimplemented-action message naming that input. -/
theorem driver_dispatch_exact_match (rngInt : Int → Int → Int)
    (rngNat : Nat → Nat → Nat)
    (hI : 3 ≤ rngInt 3 7 ∧ rngInt 3 7 < 7)
    (hN : 30 ≤ rngNat 30 60 ∧ rngNat 30 60 < 60) :
    (main_step rngInt rngNat "travel").dispatched =
      some (Action.Travel (rngInt 3 7) (rngNat 30 60)) ∧
    (main_step rngInt rngNat "travel").message = none ∧
    3 ≤ rngInt 3 7 ∧ rngInt 3 7 ≤ 6 ∧
    30 ≤ rngNat 30 60 ∧ rngNat 30 60 ≤ 59 ∧
    (∀ input : String, input ≠ "travel" →
      (main_step rngInt rngNat input).dispatched = none ∧
      (main_step rngInt rngNat input).message = some input) ∧
    (main_step rngInt rngNat "travel\n").dispatched = none ∧
    (main_step rngInt rngNat "travel\n").message = some "travel\n" := by
  have hne : ("travel\n" : String) ≠ "travel" := by decide
  refine ⟨rfl, rfl, hI.1, by omega, hN.1, by omega, ?_, ?_, ?_⟩
  · intro input h
    constructor <;> simp [main_step, h]
  · simp [main_step, hne]
  · simp [main_step, hne]

/-- Witness for C9 with the lower-bound random stand-in: "travel"
dispatches Travel(3 days, 30 miles), and the input "rest" dispatches
nothing. -/
theorem driver_dispatch_exact_match_witness :
    3 ≤ const_lo_int 3 7 ∧ const_lo_int 3 7 < 7 ∧
    30 ≤ const_lo_nat 30 60 ∧ const_lo_nat 30 60 < 60 ∧
    (main_step const_lo_int const_lo_nat "travel").dispatched =
      some (Action.Travel 3 30) ∧
    (main_step const_lo_int const_lo_nat "rest").dispatched = none := by
  have h := driver_dispatch_exact_match const_lo_int const_lo_nat
    ⟨by decide, by decide⟩ ⟨by decide, by decide⟩
  exact ⟨by decide, by decide, by decide, by decide, h.1,
    (h.2.2.2.2.2.2.1 "rest" (by decide)).1⟩

/-- C10: the Hunt food increment is an unchecked u64 addition: whenever
s.food ≤ 2^64 - 1 - 100 it computes s.food + 100 exactly, and at a
state whose food is u64::MAX the addition wraps to 99 instead of
s.food + 100. -/
theorem hunt_addition_unchecked :
    (∀ s : State, s.food ≤ U64MOD - 1 - 100 →
      (root_reducer s Action.Hunt).food = s.food + 100) ∧
    U64MOD - 1 - 100 < max_food_state.food ∧
    (root_reducer max_food_state Action.Hunt).food ≠ max_food_state.food + 100 ∧
    (root_reducer max_food_state Action.Hunt).food = 99 := by
  refine ⟨?_, by decide, by decide, by decide⟩
  intro s h
  show u64add s.food 100 = s.food + 100
  simp only [u64add, U64MOD] at h ⊢
  omega

/-- Witness for C10 (the no-overflow conjunct) at the initial state. -/
theorem hunt_addition_unchecked_witness :
    inital_state.food ≤ U64MOD - 1 - 100 ∧
    (root_reducer inital_state Action.Hunt).food = inital_state.food + 100 :=
  ⟨by decide, hunt_addition_unchecked.1 inital_state (by decide)⟩

end OregonTrail
